import Mathlib

/-!
Verification development for the build-configuration resolver of the
GroundingDINO repository (file `setup.py`).

The Python source is shallowly embedded as executable Lean definitions.
External effects are passed in explicitly:

* the process environment is an `Env` value (the `CUDA_HOME` variable and
  whether `TORCH_CUDA_ARCH_LIST` is present);
* the outcome of the `subprocess.check_output(["which", "nvcc"])` call is a
  `WhichResult` value: either the captured standard output, a
  `subprocess.SubprocessError` (caught by the source), or an OS-level spawn
  failure such as `FileNotFoundError` (not caught by the source);
* the filesystem seen by `glob` is a list of `Entry` trees in the order the
  filesystem enumerates them;
* a requirements filesystem is an association list from path to the list of
  raw lines of the file;
* the constant `torch.utils.cpp_extension.CUDA_HOME`, bound at module import
  time on line 31 of the source and therefore fixed before `setup_cuda_env`
  runs, is an explicit `Option String` parameter of `get_extensions`.

Python string operations used by the source (strip, split on a separator,
startswith, endswith, substring membership, `os.path.dirname`,
`os.path.join`) are re-implemented below on `List Char` so that every
definition is structurally recursive and evaluates by `rfl` and `decide`.
-/

/-- Characters treated as whitespace by Python `str.strip()`. -/
def isPySpace (c : Char) : Bool :=
  c = ' ' || c = '\t' || c = '\n' || c = '\r' || c = '\x0b' || c = '\x0c'

/-- Python `str.strip()` on a character list: drop whitespace on both ends. -/
def pyStripList (cs : List Char) : List Char :=
  ((cs.dropWhile isPySpace).reverse.dropWhile isPySpace).reverse

/-- Python `str.strip()`. -/
def pyStrip (s : String) : String :=
  String.mk (pyStripList s.toList)

/-- Prefix test on character lists. -/
def startsWithL : List Char → List Char → Bool
  | _, [] => true
  | [], _ :: _ => false
  | c :: cs, p :: ps => c = p && startsWithL cs ps

/-- Python `str.startswith`. -/
def pyStartsWith (s p : String) : Bool :=
  startsWithL s.toList p.toList

/-- Python `str.endswith`. -/
def pyEndsWith (s p : String) : Bool :=
  startsWithL s.toList.reverse p.toList.reverse

/-- Scan for the first occurrence of the separator: return the characters
before it and, when found, the remainder after it. -/
def breakOnSep (sep : List Char) : List Char → List Char × Option (List Char)
  | [] => ([], none)
  | c :: cs =>
    if startsWithL (c :: cs) sep then ([], some ((c :: cs).drop sep.length))
    else
      match breakOnSep sep cs with
      | (pre, r) => (c :: pre, r)

/-- Fuelled splitting loop; the fuel is an upper bound on the number of
separator occurrences, so the zero case is never reached from `pySplit`. -/
def splitFuel (sep : List Char) : Nat → List Char → List (List Char)
  | 0, cs => [cs]
  | fuel + 1, cs =>
    match breakOnSep sep cs with
    | (pre, none) => [pre]
    | (pre, some rest) => pre :: splitFuel sep fuel rest

/-- Python `str.split(sep)` for a non-empty separator: non-overlapping
occurrences, scanned left to right, keeping empty segments. -/
def pySplit (s sep : String) : List String :=
  match sep.toList with
  | [] => [s]
  | s0 :: srest => (splitFuel (s0 :: srest) (s.toList.length + 1) s.toList).map String.mk

/-- Substring-membership scan used for the Python `in` operator on strings. -/
def containsAux (sub : List Char) : List Char → Bool
  | [] => startsWithL [] sub
  | c :: cs => startsWithL (c :: cs) sub || containsAux sub cs

/-- Python `sub in s` for strings. -/
def pyContains (s sub : String) : Bool :=
  containsAux sub.toList s.toList

/-- `posixpath.dirname`: everything before the final slash; a trailing run of
slashes is removed unless the head consists only of slashes. -/
def pyDirname (s : String) : String :=
  let cs := s.toList
  let tailLen := (cs.reverse.takeWhile (fun c => c ≠ '/')).length
  if tailLen = cs.length then ""
  else
    let head := cs.take (cs.length - tailLen)
    if head.all (fun c => c = '/') then String.mk head
    else String.mk ((head.reverse.dropWhile (fun c => c = '/')).reverse)

/-- `posixpath.join` for two components. -/
def ospJoin (a b : String) : String :=
  if pyStartsWith b "/" then b
  else if a = "" || pyEndsWith a "/" then a ++ b
  else a ++ "/" ++ b

/-- Process environment as far as the source reads it: the optional
`CUDA_HOME` variable and presence of `TORCH_CUDA_ARCH_LIST`. -/
structure Env where
  cudaHomeVar : Option String
  archListVar : Bool
deriving DecidableEq, Repr

/-- Outcome of `subprocess.check_output(["which", "nvcc"], text=True)`.
`output` is a successful run with the given standard output;
`subprocessError` is a raised `subprocess.SubprocessError` (for example the
`CalledProcessError` raised when `which` exits non-zero because `nvcc` is not
on the search path); `spawnError` is an OS-level failure to start the lookup
process itself (`FileNotFoundError`, an `OSError`), which is not a subclass of
`subprocess.SubprocessError`. -/
inductive WhichResult where
  | output (stdout : String)
  | subprocessError
  | spawnError
deriving DecidableEq, Repr

/-- Python return value of `setup_cuda_env`: `True`, `False`, or the implicit
`None` of falling off the end of the function. -/
inductive PyRet where
  | pyTrue
  | pyFalse
  | pyNone
deriving DecidableEq, Repr

/-- Embedding of `setup_cuda_env` (setup.py lines 44-59). The pair holds the
Python return value and the possibly updated environment; `.error ()` models
an uncaught exception propagating out of the function (the source catches
only `subprocess.SubprocessError`). -/
def setup_cuda_env (env : Env) (whichNvcc : WhichResult) : Except Unit (PyRet × Env) :=
  match env.cudaHomeVar with
  | some _ => .ok (.pyTrue, env)
  | none =>
    match whichNvcc with
    | .output s =>
      let nvcc_path := pyStrip s
      if nvcc_path != "" then
        .ok (.pyTrue, { env with cudaHomeVar := some (pyDirname (pyDirname nvcc_path)) })
      else
        .ok (.pyNone, env)
    | .subprocessError => .ok (.pyFalse, env)
    | .spawnError => .error ()

/-- Embedding of `write_version_file` (setup.py lines 62-75), returning the
text written to `groundingdino/version.py`. `gitDirExists` models
`os.path.exists(os.path.join(cwd, ".git"))`; `gitResult` models the combined
outcome of the `git rev-parse HEAD` call and the ascii decode, whose failures
are all swallowed by the `except Exception: pass` of the source, leaving the
sentinel in place. -/
def write_version_file (version : String) (gitDirExists : Bool)
    (gitResult : Except Unit String) : String :=
  let sha :=
    if gitDirExists then
      match gitResult with
      | .ok out => pyStrip out
      | .error _ => "Unknown"
    else "Unknown"
  "__version__ = \x27" ++ version ++ "\x27\n" ++ "git_version = \x27" ++ sha ++ "\x27\n"

/-- A filesystem entry as enumerated by `os.scandir`; children are listed in
the order the filesystem enumerates them, which is the order `glob.glob`
returns matches (the source never sorts them). -/
inductive Entry where
  | file (nm : String)
  | dir (nm : String) (children : List Entry)

/-- Name of an entry. -/
def entryName : Entry → String
  | .file nm => nm
  | .dir nm _ => nm

/-- `glob.glob(os.path.join(root, "**", "*" + suffix))` with the default
`recursive=False`: the `**` component is an ordinary fnmatch pattern matching
any single non-hidden name, so only entries lying exactly one directory below
`root` are produced, in enumeration order. The final component matches any
non-hidden name ending in `suffix`. -/
def globOneLevel (root : String) (entries : List Entry) (suffix : String) : List String :=
  entries.foldr
    (fun e acc =>
      match e with
      | .file _ => acc
      | .dir nm children =>
        (if pyStartsWith nm "." then []
         else
           children.foldr
             (fun c acc2 =>
               if pyEndsWith (entryName c) suffix && !pyStartsWith (entryName c) "." then
                 ospJoin (ospJoin root nm) (entryName c) :: acc2
               else acc2)
             []) ++ acc)
    []

/-- `glob.glob(os.path.join(root, "*" + suffix))`: non-hidden entries directly
in `root` whose name ends in `suffix`, in enumeration order. -/
def globTopLevel (root : String) (entries : List Entry) (suffix : String) : List String :=
  entries.foldr
    (fun e acc =>
      if pyEndsWith (entryName e) suffix && !pyStartsWith (entryName e) "." then
        ospJoin root (entryName e) :: acc
      else acc)
    []

/-- Which torch extension class is instantiated. -/
inductive ExtKind where
  | CppExtension
  | CUDAExtension
deriving DecidableEq, Repr

/-- The argument bundle passed to the extension constructor on setup.py lines
118-126: the extension class used, the module name, the source list, the
include directories, the define-macro list, and the per-compiler flag lists
from `extra_compile_args`. -/
structure NativeExt where
  kind : ExtKind
  modName : String
  sources : List String
  include_dirs : List String
  define_macros : List (String × Option String)
  cxxArgs : List String
  nvccArgs : List String
deriving DecidableEq, Repr

/-- The fixed `nvcc` flag list of setup.py lines 102-107. -/
def nvccCompileArgs : List String :=
  ["-DCUDA_HAS_FP16=1",
   "-D__CUDA_NO_HALF_OPERATORS__",
   "-D__CUDA_NO_HALF_CONVERSIONS__",
   "-D__CUDA_NO_HALF2_OPERATORS__"]

/-- `os.path.join(this_dir, "groundingdino", "models", "GroundingDINO", "csrc")`. -/
def extensionsDir (this_dir : String) : String :=
  ospJoin (ospJoin (ospJoin (ospJoin this_dir "groundingdino") "models") "GroundingDINO") "csrc"

/-- Embedding of `get_extensions` (setup.py lines 78-128).

`this_dir` is the absolute directory of setup.py; `csrcEntries` are the
enumerated children of the extension source directory; `torchCudaHome` is the
constant `CUDA_HOME` imported from `torch.utils.cpp_extension` on line 31 —
it is bound once at module import time, before `setup_cuda_env` runs, so the
`os.environ` write performed by `setup_cuda_env` cannot change it;
`cudaAvailable` is `torch.cuda.is_available()`. The result pairs the returned
`ext_modules` list with the environment after the `setup_cuda_env` call;
`.error ()` is an exception propagating out of `setup_cuda_env`. -/
def get_extensions (this_dir : String) (csrcEntries : List Entry)
    (torchCudaHome : Option String) (env : Env) (whichNvcc : WhichResult)
    (cudaAvailable : Bool) : Except Unit (List NativeExt × Env) :=
  let extDir := extensionsDir this_dir
  let main_source := ospJoin extDir "vision.cpp"
  let sources0 := globOneLevel extDir csrcEntries ".cpp"
  let source_cuda := globOneLevel extDir csrcEntries ".cu" ++ globTopLevel extDir csrcEntries ".cu"
  let sources1 := main_source :: sources0
  match setup_cuda_env env whichNvcc with
  | .error e => .error e
  | .ok (_, env1) =>
    if torchCudaHome.isSome && (cudaAvailable || env1.archListVar) then
      let sources2 := sources1 ++ source_cuda
      let sources3 := sources2.map (fun s => ospJoin extDir s)
      .ok ([{ kind := .CUDAExtension,
              modName := "groundingdino._C",
              sources := sources3,
              include_dirs := [extDir],
              define_macros := [("WITH_CUDA", none)],
              cxxArgs := [],
              nvccArgs := nvccCompileArgs }], env1)
    else
      .ok ([], env1)

/-- Reference description used to compare the collection step against the
wording of the (amended) spec sentence for the source scan: for each
non-hidden directory child of the root, in enumeration order, the non-hidden
grandchildren whose name ends in the suffix, in enumeration order — depth
exactly one, nothing from the top level and nothing deeper. -/
def specOneLevelFiles (root : String) : List Entry → String → List String
  | [], _ => []
  | .file _ :: rest, suffix => specOneLevelFiles root rest suffix
  | .dir nm cs :: rest, suffix =>
    (if pyStartsWith nm "." then []
     else
       ((cs.filter fun c => pyEndsWith (entryName c) suffix && !pyStartsWith (entryName c) ".").map
         fun c => ospJoin (ospJoin root nm) (entryName c))) ++ specOneLevelFiles root rest suffix

/-- The Python dict built per requirement line by `parse_line`
(setup.py lines 147-168): the raw line, the recorded package name, the
optional `(operator, version)` pair and the optional platform marker. -/
structure Info where
  line : String
  package : String
  version : Option (String × String)
  platform_deps : Option String
deriving DecidableEq, Repr

/-- Exceptions that can escape the requirements parser: `FileNotFoundError`
from `open` on a missing included file, `IndexError` from `[1]` on a split
with no separator, `ValueError` from unpacking a split with too many pieces,
and Python `RecursionError` from unboundedly nested includes. -/
inductive PErr where
  | fileNotFound (path : String)
  | indexError
  | valueError
  | recursionError
deriving DecidableEq, Repr

/-- The filesystem visible to the requirements parser: an association list
from path to the stripped-to-be lines returned by `readlines`. -/
abbrev FS := List (String × List String)

/-- Path lookup in the modelled filesystem; `none` means the file does not
exist, so `open` would raise and `os.path.exists` would return `False`. -/
def lookupFS : FS → String → Option (List String)
  | [], _ => none
  | (p, ls) :: rest, q => if p = q then some ls else lookupFS rest q

/-- Leftmost match of `re.split("(>=|==|>)", line, maxsplit=1)`: at each
position the alternatives are tried in the order `>=`, `==`, `>`, so `>=` is
found before `>` at the same position. Returns the characters before the
operator, the operator, and the characters after it. -/
def findOpAux : List Char → Option (List Char × String × List Char)
  | [] => none
  | c :: cs =>
    if c = '>' then
      match cs with
      | '=' :: rest => some ([], ">=", rest)
      | _ => some ([], ">", cs)
    else if c = '=' then
      match cs with
      | '=' :: rest => some ([], "==", rest)
      | _ =>
        match findOpAux cs with
        | some (pre, op, post) => some (c :: pre, op, post)
        | none => none
    else
      match findOpAux cs with
      | some (pre, op, post) => some (c :: pre, op, post)
      | none => none

/-- `re.split("(>=|==|>)", line, maxsplit=1)` restricted to the match case:
`none` when the line holds no operator. -/
def reSplitOp (line : String) : Option (String × String × String) :=
  match findOpAux line.toList with
  | none => none
  | some (pre, op, post) => some (String.mk pre, op, String.mk post)

/-- Embedding of the non-include branches of `parse_line` (setup.py lines
146-169); `line` is already stripped, non-empty and not a comment. Editable
lines take the second segment of the `#egg=` split, raising `IndexError`
when the marker is absent; lines containing `@git+` are kept whole; otherwise
the line is split on the first version operator, and a `;` in the right part
separates the version from a platform marker. -/
def parse_line_plain (line : String) : Except PErr Info :=
  if pyStartsWith line "-e " then
    match (pySplit line "#egg=")[1]? with
    | none => .error .indexError
    | some pkg => .ok { line := line, package := pkg, version := none, platform_deps := none }
  else if pyContains line "@git+" then
    .ok { line := line, package := line, version := none, platform_deps := none }
  else
    match reSplitOp line with
    | none => .ok { line := line, package := pyStrip line, version := none, platform_deps := none }
    | some (pre, op, post) =>
      let package := pyStrip pre
      let op1 := pyStrip op
      let rest := pyStrip post
      if pyContains rest ";" then
        match pySplit rest ";" with
        | [ver, pd] =>
          .ok { line := line, package := package,
                version := some (op1, pyStrip ver), platform_deps := some (pyStrip pd) }
        | _ => .error .valueError
      else
        .ok { line := line, package := package, version := some (op1, rest), platform_deps := none }

/-- One step of the line loop of `parse_require_file` combined with
`parse_line` (setup.py lines 139-177): strip the line, skip blanks and
comments, recurse through `-r` includes via the supplied callback, and
otherwise parse a single requirement, concatenating with the results of the
later lines. A failure on an earlier line wins over a later one, matching the
order in which the Python generator raises. -/
def combineLine (recurse : String → Except PErr (List Info)) (l : String)
    (acc : Except PErr (List Info)) : Except PErr (List Info) :=
  let line := pyStrip l
  if line == "" || pyStartsWith line "#" then acc
  else if pyStartsWith line "-r " then
    match (pySplit line " ")[1]? with
    | none => .error .indexError
    | some target =>
      match recurse target with
      | .error e => .error e
      | .ok included =>
        match acc with
        | .error e => .error e
        | .ok more => .ok (included ++ more)
  else
    match parse_line_plain line with
    | .error e => .error e
    | .ok info =>
      match acc with
      | .error e => .error e
      | .ok more => .ok (info :: more)

/-- Embedding of `parse_require_file` (setup.py lines 171-177): open the
file (raising when absent), then fold the line handler over its lines.
Nesting depth is bounded by explicit fuel; exhausting it models the Python
`RecursionError` reached by cyclic includes. -/
def parse_require_file (fs : FS) : Nat → String → Except PErr (List Info)
  | 0 => fun _ => .error .recursionError
  | fuel + 1 => fun fpath =>
    match lookupFS fs fpath with
    | none => .error (.fileNotFound fpath)
    | some rawLines => rawLines.foldr (combineLine (parse_require_file fs fuel)) (.ok [])

/-- The line loop of `parse_require_file` at a given nesting budget, named so
theorems can speak about the tail of a file. -/
def gen_lines (fs : FS) (fuel : Nat) (ls : List String) : Except PErr (List Info) :=
  ls.foldr (combineLine (parse_require_file fs fuel)) (.ok [])

/-- Embedding of the item builder of `gen_packages_items` (setup.py lines
182-191): package name, then operator and version when requested and present,
then `;marker` when present. The Python-3.4 guard of line 185 is always taken
on the supported interpreters (`python_requires>=3.7`). -/
def gen_item (with_version : Bool) (info : Info) : String :=
  let parts := [info.package]
  let parts :=
    match with_version, info.version with
    | true, some (op, ver) => parts ++ [op, ver]
    | _, _ => parts
  let parts :=
    match info.platform_deps with
    | some pd => parts ++ [";" ++ pd]
    | none => parts
  String.join parts

/-- Embedding of `parse_requirements` (setup.py lines 131-194): when the
top-level file exists its parsed entries are rendered to strings; when it
does not exist the generator yields nothing and the function returns an empty
list without failing. -/
def parse_requirements (fs : FS) (fuel : Nat) (fname : String) (with_version : Bool) :
    Except PErr (List String) :=
  match lookupFS fs fname with
  | some _ =>
    match parse_require_file fs fuel fname with
    | .error e => .error e
    | .ok infos => .ok (infos.map (gen_item with_version))
  | none => .ok []

/-- When the lookup subprocess does not fail at spawn time, `setup_cuda_env`
returns normally, and the `TORCH_CUDA_ARCH_LIST` presence flag is untouched. -/
lemma setup_cuda_env_ok (env : Env) (w : WhichResult) (hw : w ≠ .spawnError) :
    ∃ r env1, setup_cuda_env env w = .ok (r, env1) ∧ env1.archListVar = env.archListVar := by
  cases env with
  | mk ch arch =>
    cases ch with
    | some p => exact ⟨.pyTrue, _, rfl, rfl⟩
    | none =>
      cases w with
      | output s =>
        cases hd : (pyStrip s != "") with
        | true =>
          refine ⟨.pyTrue,
            { cudaHomeVar := some (pyDirname (pyDirname (pyStrip s))), archListVar := arch },
            ?_, rfl⟩
          simp [setup_cuda_env, hd]
        | false =>
          refine ⟨.pyNone, ⟨none, arch⟩, ?_, rfl⟩
          simp [setup_cuda_env, hd]
      | subprocessError => exact ⟨.pyFalse, _, rfl, rfl⟩
      | spawnError => exact absurd rfl hw

/-- Characterization of the plan returned by `get_extensions` when
`setup_cuda_env` returns normally: the condition of setup.py line 97 decides
between the single accelerated extension and the empty list, and the probe
result itself has no influence. -/
lemma get_extensions_fst (d : String) (es : List Entry) (ch : Option String) (env : Env)
    (w : WhichResult) (avail : Bool) (hw : w ≠ .spawnError) :
    (get_extensions d es ch env w avail).map Prod.fst = .ok
      (if ch.isSome && (avail || env.archListVar) then
        [{ kind := .CUDAExtension,
           modName := "groundingdino._C",
           sources := ((ospJoin (extensionsDir d) "vision.cpp" ::
               globOneLevel (extensionsDir d) es ".cpp") ++
             (globOneLevel (extensionsDir d) es ".cu" ++
              globTopLevel (extensionsDir d) es ".cu")).map
               (fun s => ospJoin (extensionsDir d) s),
           include_dirs := [extensionsDir d],
           define_macros := [("WITH_CUDA", none)],
           cxxArgs := [],
           nvccArgs := nvccCompileArgs }]
       else []) := by
  obtain ⟨r, env1, hok, harch⟩ := setup_cuda_env_ok env w hw
  unfold get_extensions
  rw [hok, ← harch]
  cases hc : (ch.isSome && (avail || env1.archListVar)) <;> simp [hc, Except.map]

/-- The inner accumulation of `globOneLevel` is a filter followed by a map. -/
lemma foldr_filter_map {α β : Type} (p : α → Bool) (f : α → β) (l : List α) :
    l.foldr (fun c acc => if p c then f c :: acc else acc) [] = (l.filter p).map f := by
  induction l with
  | nil => rfl
  | cons a l ih =>
    cases h : p a <;> simp [List.filter_cons, h, ih]

/-- The one-level glob of the source agrees with the reference description:
depth exactly one below the root, enumeration order. -/
lemma globOneLevel_eq_spec (root : String) (es : List Entry) (suffix : String) :
    globOneLevel root es suffix = specOneLevelFiles root es suffix := by
  induction es with
  | nil => rfl
  | cons e rest ih =>
    cases e with
    | file nm => simpa [globOneLevel, specOneLevelFiles] using ih
    | dir nm cs =>
      show (if pyStartsWith nm "." then [] else
          cs.foldr (fun c acc2 =>
            if pyEndsWith (entryName c) suffix && !pyStartsWith (entryName c) "." then
              ospJoin (ospJoin root nm) (entryName c) :: acc2
            else acc2) []) ++ globOneLevel root rest suffix = _
      rw [ih, foldr_filter_map]
      rfl

/-- Unfolding `parse_require_file` at positive fuel. -/
lemma parse_require_file_succ (fs : FS) (fuel : Nat) (fpath : String) :
    parse_require_file fs (fuel + 1) fpath =
      match lookupFS fs fpath with
      | none => .error (.fileNotFound fpath)
      | some rawLines => gen_lines fs fuel rawLines := rfl

/-- Unfolding the line loop one line at a time. -/
lemma gen_lines_cons (fs : FS) (fuel : Nat) (l : String) (rest : List String) :
    gen_lines fs fuel (l :: rest) =
      combineLine (parse_require_file fs fuel) l (gen_lines fs fuel rest) := rfl

/-- Joining a one-element list of strings gives the element back. -/
lemma string_join_single (s : String) : String.join [s] = s := rfl

/-- C1, counterexample. In an environment where the probe finds no toolchain
(`CUDA_HOME` unset and the `which nvcc` lookup fails, so `setup_cuda_env`
returns `False`), but the import-time constant
`torch.utils.cpp_extension.CUDA_HOME` is non-None (torch locates CUDA through
its own fallbacks, for example an existing `/usr/local/cuda`) and a GPU
runtime is usable, `get_extensions` returns a populated accelerated plan, not
the empty plan the claim requires: the probe result is discarded on line 95
and the decision on line 97 reads only the import-time constant. -/
theorem C1_counterexample :
    setup_cuda_env ⟨none, false⟩ .subprocessError = .ok (.pyFalse, ⟨none, false⟩) ∧
    get_extensions "/repo" [] (some "/usr/local/cuda") ⟨none, false⟩ .subprocessError true =
      .ok ([{ kind := .CUDAExtension,
              modName := "groundingdino._C",
              sources := ["/repo/groundingdino/models/GroundingDINO/csrc/vision.cpp"],
              include_dirs := ["/repo/groundingdino/models/GroundingDINO/csrc"],
              define_macros := [("WITH_CUDA", none)],
              cxxArgs := [],
              nvccArgs := nvccCompileArgs }], ⟨none, false⟩) :=
  ⟨rfl, rfl⟩

/-- C1, amended. For every environment in which the import-time toolchain
constant (`torch.utils.cpp_extension.CUDA_HOME`, captured before the probe
runs) is None, or in which neither a usable GPU runtime nor the
`TORCH_CUDA_ARCH_LIST` override is present, `get_extensions` returns an empty
plan — never a populated CPU-only plan. The result of the in-file probe
`setup_cuda_env` plays no role in the decision. -/
theorem C1_thm (d : String) (es : List Entry) (ch : Option String) (env : Env)
    (w : WhichResult) (avail : Bool) (hw : w ≠ .spawnError)
    (h : ch = none ∨ (avail = false ∧ env.archListVar = false)) :
    (get_extensions d es ch env w avail).map Prod.fst = .ok [] := by
  rw [get_extensions_fst d es ch env w avail hw]
  rcases h with h | ⟨h1, h2⟩
  · simp [h]
  · simp [h1, h2]

/-- C1, witness for the amended theorem at a concrete input. -/
theorem C1_witness :
    (get_extensions "/r" [] none ⟨none, false⟩ .subprocessError false).map Prod.fst = .ok [] :=
  C1_thm "/r" [] none ⟨none, false⟩ .subprocessError false (by decide) (Or.inl rfl)

/-- C2, counterexample to the only-if direction. The probe reports the
toolchain absent (`setup_cuda_env` returns `False`), yet because the
import-time constant is non-None and the `TORCH_CUDA_ARCH_LIST` override is
present, the plan is accelerated — so the accelerated plan is not equivalent
to the probe reporting the toolchain present. -/
theorem C2_counterexample :
    setup_cuda_env ⟨none, true⟩ .subprocessError = .ok (.pyFalse, ⟨none, true⟩) ∧
    get_extensions "/w" [.dir "cuda" [.file "ms_deform_attn_cuda.cu"]] (some "/usr/local/cuda")
        ⟨none, true⟩ .subprocessError false =
      .ok ([{ kind := .CUDAExtension,
              modName := "groundingdino._C",
              sources := ["/w/groundingdino/models/GroundingDINO/csrc/vision.cpp",
                          "/w/groundingdino/models/GroundingDINO/csrc/cuda/ms_deform_attn_cuda.cu"],
              include_dirs := ["/w/groundingdino/models/GroundingDINO/csrc"],
              define_macros := [("WITH_CUDA", none)],
              cxxArgs := [],
              nvccArgs := nvccCompileArgs }], ⟨none, true⟩) :=
  ⟨rfl, rfl⟩

/-- C2, amended. For every environment in which `setup_cuda_env` does not
raise, the plan is accelerated — entry point first, then the generic sources,
then the accelerator sources, with the `WITH_CUDA` macro and the fixed nvcc
flag list and an empty cxx flag list — exactly when the import-time constant
`torch.utils.cpp_extension.CUDA_HOME` is non-None and (a GPU runtime is
usable or `TORCH_CUDA_ARCH_LIST` is present); otherwise the plan is empty.
The probe result itself does not enter the condition. -/
theorem C2_thm (d : String) (es : List Entry) (ch : Option String) (env : Env)
    (w : WhichResult) (avail : Bool) (hw : w ≠ .spawnError) :
    (get_extensions d es ch env w avail).map Prod.fst = .ok
      (if ch.isSome && (avail || env.archListVar) then
        [{ kind := .CUDAExtension,
           modName := "groundingdino._C",
           sources := ((ospJoin (extensionsDir d) "vision.cpp" ::
               globOneLevel (extensionsDir d) es ".cpp") ++
             (globOneLevel (extensionsDir d) es ".cu" ++
              globTopLevel (extensionsDir d) es ".cu")).map
               (fun s => ospJoin (extensionsDir d) s),
           include_dirs := [extensionsDir d],
           define_macros := [("WITH_CUDA", none)],
           cxxArgs := [],
           nvccArgs := nvccCompileArgs }]
       else []) :=
  get_extensions_fst d es ch env w avail hw

/-- C2, witness at a concrete accelerated input: entry point first, generic
sources next, accelerator sources last, macro and nvcc flags attached. -/
theorem C2_witness :
    (get_extensions "/w2" [.dir "sub" [.file "m.cpp", .file "k.cu"], .file "top.cu"]
        (some "/usr/local/cuda") ⟨none, false⟩ (.output "/usr/local/cuda/bin/nvcc") true).map
        Prod.fst =
      .ok [{ kind := .CUDAExtension,
             modName := "groundingdino._C",
             sources := ["/w2/groundingdino/models/GroundingDINO/csrc/vision.cpp",
                         "/w2/groundingdino/models/GroundingDINO/csrc/sub/m.cpp",
                         "/w2/groundingdino/models/GroundingDINO/csrc/sub/k.cu",
                         "/w2/groundingdino/models/GroundingDINO/csrc/top.cu"],
             include_dirs := ["/w2/groundingdino/models/GroundingDINO/csrc"],
             define_macros := [("WITH_CUDA", none)],
             cxxArgs := [],
             nvccArgs := nvccCompileArgs }] :=
  C2_thm "/w2" [.dir "sub" [.file "m.cpp", .file "k.cu"], .file "top.cu"]
    (some "/usr/local/cuda") ⟨none, false⟩ (.output "/usr/local/cuda/bin/nvcc") true (by decide)

/-- C3, counterexample. When `CUDA_HOME` is unset and the lookup subprocess
itself cannot be spawned (`which` missing, raising `FileNotFoundError`, an
`OSError` outside `subprocess.SubprocessError`), `setup_cuda_env` propagates
the exception instead of returning a present=false result. -/
theorem C3_counterexample :
    setup_cuda_env ⟨none, false⟩ .spawnError = .error () := rfl

/-- C3, amended. `setup_cuda_env` returns normally for every environment in
which the lookup subprocess can be spawned, and when the variable is unset
and the lookup runs but fails (a `subprocess.SubprocessError`, e.g. `nvcc`
not on the search path) it returns `False` with the environment unchanged;
only an OS-level spawn failure of the lookup propagates an exception. -/
theorem C3_thm (env : Env) (w : WhichResult) (hw : w ≠ .spawnError) :
    setup_cuda_env env w ≠ .error () ∧
    (env.cudaHomeVar = none → setup_cuda_env env .subprocessError = .ok (.pyFalse, env)) := by
  constructor
  · obtain ⟨r, e1, hok, -⟩ := setup_cuda_env_ok env w hw
    simp [hok]
  · intro h
    cases env with
    | mk c a =>
      cases c with
      | none => rfl
      | some p => exact Option.noConfusion h

/-- C3, witness for the amended theorem at a concrete input. -/
theorem C3_witness :
    setup_cuda_env ⟨none, false⟩ .subprocessError = .ok (.pyFalse, ⟨none, false⟩) :=
  (C3_thm ⟨none, false⟩ .subprocessError (by decide)).2 rfl

/-- C7. With the toolchain root variable pre-set, `setup_cuda_env` returns
`True` at once with the environment (hence the stored path) unchanged, and
the result does not depend on the search-path lookup outcome — no lookup is
performed — so repeated calls in the same process environment agree. -/
theorem C7_thm (env : Env) (w w2 : WhichResult) (p : String)
    (h : env.cudaHomeVar = some p) :
    setup_cuda_env env w = .ok (.pyTrue, env) ∧
    setup_cuda_env env w = setup_cuda_env env w2 := by
  have h1 : setup_cuda_env env w = .ok (.pyTrue, env) := by
    unfold setup_cuda_env
    rw [h]
  have h2 : setup_cuda_env env w2 = .ok (.pyTrue, env) := by
    unfold setup_cuda_env
    rw [h]
  exact ⟨h1, h1.trans h2.symm⟩

/-- C7, witness at a concrete input: the pre-set path is kept even when the
hypothetical lookup outcome varies. -/
theorem C7_witness :
    setup_cuda_env ⟨some "/opt/cuda", false⟩ .spawnError =
        .ok (.pyTrue, ⟨some "/opt/cuda", false⟩) ∧
    setup_cuda_env ⟨some "/opt/cuda", false⟩ .spawnError =
      setup_cuda_env ⟨some "/opt/cuda", false⟩ (.output "/x/bin/nvcc") :=
  C7_thm ⟨some "/opt/cuda", false⟩ .spawnError (.output "/x/bin/nvcc") "/opt/cuda" rfl

/-- C8, counterexample. With a generic source at the top level (`alt.cpp`), a
subdirectory whose enumeration order is not lexicographic (`b.cpp` before
`a.cpp`), and a file two levels down (`zdir/deep/x.cpp`), the plan misses the
top-level and depth-two files entirely — the `**` glob is not recursive — and
keeps the remainder in raw enumeration order `b.cpp, a.cpp` rather than
sorting it, refuting both the full-subtree collection and the lexicographic
ordering asserted by the claim. -/
theorem C8_counterexample :
    get_extensions "/repo"
        [.file "alt.cpp", .dir "zdir" [.file "b.cpp", .file "a.cpp", .dir "deep" [.file "x.cpp"]]]
        (some "/usr/local/cuda") ⟨none, false⟩ .subprocessError true =
      .ok ([{ kind := .CUDAExtension,
              modName := "groundingdino._C",
              sources := ["/repo/groundingdino/models/GroundingDINO/csrc/vision.cpp",
                          "/repo/groundingdino/models/GroundingDINO/csrc/zdir/b.cpp",
                          "/repo/groundingdino/models/GroundingDINO/csrc/zdir/a.cpp"],
              include_dirs := ["/repo/groundingdino/models/GroundingDINO/csrc"],
              define_macros := [("WITH_CUDA", none)],
              cxxArgs := [],
              nvccArgs := nvccCompileArgs }], ⟨none, false⟩) ∧
    "/repo/groundingdino/models/GroundingDINO/csrc/alt.cpp" ∉
      ["/repo/groundingdino/models/GroundingDINO/csrc/vision.cpp",
       "/repo/groundingdino/models/GroundingDINO/csrc/zdir/b.cpp",
       "/repo/groundingdino/models/GroundingDINO/csrc/zdir/a.cpp"] ∧
    "/repo/groundingdino/models/GroundingDINO/csrc/zdir/deep/x.cpp" ∉
      ["/repo/groundingdino/models/GroundingDINO/csrc/vision.cpp",
       "/repo/groundingdino/models/GroundingDINO/csrc/zdir/b.cpp",
       "/repo/groundingdino/models/GroundingDINO/csrc/zdir/a.cpp"] :=
  ⟨rfl, by decide, by decide⟩

/-- C8, amended. When the accelerated branch is taken, the plan orders the
mandatory entry point first, and the collected generic sources are exactly
the files lying one directory level below the extension source directory
(the `**` glob pattern is used without recursive globbing, so top-level and
deeper files are missed), kept in the order the filesystem enumerates them —
the glob results are not sorted. -/
theorem C8_thm (d : String) (es : List Entry) (ch : Option String) (env : Env)
    (w : WhichResult) (avail : Bool) (hw : w ≠ .spawnError)
    (hacc : (ch.isSome && (avail || env.archListVar)) = true) :
    (get_extensions d es ch env w avail).map Prod.fst = .ok
      [{ kind := .CUDAExtension,
         modName := "groundingdino._C",
         sources := ((ospJoin (extensionsDir d) "vision.cpp" ::
             specOneLevelFiles (extensionsDir d) es ".cpp") ++
           (globOneLevel (extensionsDir d) es ".cu" ++
            globTopLevel (extensionsDir d) es ".cu")).map
             (fun s => ospJoin (extensionsDir d) s),
         include_dirs := [extensionsDir d],
         define_macros := [("WITH_CUDA", none)],
         cxxArgs := [],
         nvccArgs := nvccCompileArgs }] := by
  rw [get_extensions_fst d es ch env w avail hw, hacc,
    globOneLevel_eq_spec (extensionsDir d) es ".cpp"]
  simp

/-- C8, witness for the amended theorem: enumeration order is kept as is. -/
theorem C8_witness :
    (get_extensions "/r8" [.dir "sub8" [.file "b8.cpp", .file "a8.cpp"]] (some "/usr/local/cuda")
        ⟨none, false⟩ .subprocessError true).map Prod.fst =
      .ok [{ kind := .CUDAExtension,
             modName := "groundingdino._C",
             sources := ["/r8/groundingdino/models/GroundingDINO/csrc/vision.cpp",
                         "/r8/groundingdino/models/GroundingDINO/csrc/sub8/b8.cpp",
                         "/r8/groundingdino/models/GroundingDINO/csrc/sub8/a8.cpp"],
             include_dirs := ["/r8/groundingdino/models/GroundingDINO/csrc"],
             define_macros := [("WITH_CUDA", none)],
             cxxArgs := [],
             nvccArgs := nvccCompileArgs }] :=
  C8_thm "/r8" [.dir "sub8" [.file "b8.cpp", .file "a8.cpp"]] (some "/usr/local/cuda")
    ⟨none, false⟩ .subprocessError true (by decide) (by decide)

/-- C9. The stamp always begins with the version assignment line; whenever no
checkout is present or the revision lookup fails in any way, the revision
line carries the sentinel `Unknown` (the function is total — the source
swallows every exception of the lookup); inside a checkout with a successful
lookup the revision line carries the stripped lookup output. -/
theorem C9_thm (v : String) (g : Bool) (r : Except Unit String) :
    (∃ sha, write_version_file v g r =
        "__version__ = \x27" ++ v ++ "\x27\n" ++ "git_version = \x27" ++ sha ++ "\x27\n") ∧
    (g = false ∨ r = .error () →
       write_version_file v g r =
         "__version__ = \x27" ++ v ++ "\x27\n" ++ "git_version = \x27" ++ "Unknown" ++ "\x27\n") ∧
    (∀ out, g = true → r = .ok out →
       write_version_file v g r =
         "__version__ = \x27" ++ v ++ "\x27\n" ++ "git_version = \x27" ++ pyStrip out ++ "\x27\n") := by
  refine ⟨⟨_, rfl⟩, ?_, ?_⟩
  · intro h
    rcases h with h | h
    · subst h; rfl
    · subst h; cases g <;> rfl
  · intro out hg hr
    subst hg
    subst hr
    rfl

/-- C9, witness: outside a checkout the revision line reads `Unknown`. -/
theorem C9_witness :
    write_version_file "0.1.0" false (.error ()) =
      "__version__ = \x270.1.0\x27\n" ++ "git_version = \x27Unknown\x27\n" :=
  (C9_thm "0.1.0" false (.error ())).2.1 (Or.inl rfl)

/-- C4, counterexample. Called on a path that does not exist,
`parse_requirements` returns an empty result instead of failing: the
existence check inside `gen_packages_items` silently skips parsing. -/
theorem C4_counterexample :
    parse_requirements [] 5 "requirements.txt" true = .ok [] := rfl

/-- C4, amended. On a missing top-level path `parse_requirements` returns an
empty list without failing (the caller, not the parser, substitutes the
built-in default dependency list after its own existence check); a not-found
failure arises only when a nested `-r` include names a missing file, where
`parse_require_file` opens the file unguarded. -/
theorem C4_thm (fs : FS) (fuel : Nat) (fname : String) (wv : Bool)
    (h : lookupFS fs fname = none) :
    parse_requirements fs fuel fname wv = .ok [] ∧
    parse_require_file fs (fuel + 1) fname = .error (.fileNotFound fname) := by
  constructor
  · unfold parse_requirements
    rw [h]
  · rw [parse_require_file_succ, h]

/-- C4, witness for the amended theorem at a concrete input. -/
theorem C4_witness :
    parse_requirements [("other.txt", ["numpy"])] 3 "requirements.txt" true = .ok [] ∧
    parse_require_file [("other.txt", ["numpy"])] 4 "requirements.txt" =
      .error (.fileNotFound "requirements.txt") :=
  C4_thm [("other.txt", ["numpy"])] 3 "requirements.txt" true rfl

/-- C5. On the three given lines the parser yields exactly the two stated
descriptors in order — `numpy` with constraint `(>=, 1.19.2)` and no marker,
then `torch` with constraint `(==, 1.9.0)` and the trimmed platform marker —
and renders them to the expected requirement strings. -/
theorem C5_thm :
    parse_require_file
        [("requirements.txt",
          ["numpy>=1.19.2", "# comment", "torch==1.9.0; sys_platform==\x27linux\x27"])]
        1 "requirements.txt" =
      .ok [{ line := "numpy>=1.19.2", package := "numpy",
             version := some (">=", "1.19.2"), platform_deps := none },
           { line := "torch==1.9.0; sys_platform==\x27linux\x27", package := "torch",
             version := some ("==", "1.9.0"),
             platform_deps := some "sys_platform==\x27linux\x27" }] ∧
    parse_requirements
        [("requirements.txt",
          ["numpy>=1.19.2", "# comment", "torch==1.9.0; sys_platform==\x27linux\x27"])]
        1 "requirements.txt" true =
      .ok ["numpy>=1.19.2", "torch==1.9.0;sys_platform==\x27linux\x27"] :=
  ⟨rfl, rfl⟩

/-- C6. A file whose first line is a well-formed `-r` include directive
expands, in place, to the fully expanded descriptors of the included file
(depth-first, recursively through `parse_require_file` itself), immediately
followed by the expansion of the remaining lines of the including file, with
no duplication or reordering. -/
theorem C6_thm (fs : FS) (fuel : Nat) (fpath lineR target : String) (rest : List String)
    (incl tail : List Info)
    (hfs : lookupFS fs fpath = some (lineR :: rest))
    (htrim : pyStrip lineR = lineR)
    (hne : (lineR == "") = false)
    (hh : pyStartsWith lineR "#" = false)
    (hr : pyStartsWith lineR "-r " = true)
    (hsplit : (pySplit lineR " ")[1]? = some target)
    (h1 : parse_require_file fs fuel target = .ok incl)
    (h2 : gen_lines fs fuel rest = .ok tail) :
    parse_require_file fs (fuel + 1) fpath = .ok (incl ++ tail) := by
  rw [parse_require_file_succ, hfs]
  show gen_lines fs fuel (lineR :: rest) = .ok (incl ++ tail)
  rw [gen_lines_cons, h2]
  simp [combineLine, htrim, hne, hh, hr, hsplit, h1]

/-- C6, witness: `-r other.txt` followed by a direct dependency expands to
the two entries of `other.txt` in their original order, then the direct
dependency. -/
theorem C6_witness :
    parse_require_file
        [("reqs.txt", ["-r other.txt", "scipy>=1.5"]),
         ("other.txt", ["torch==1.9.0", "numpy>=1.19.2"])] 2 "reqs.txt" =
      .ok [{ line := "torch==1.9.0", package := "torch",
             version := some ("==", "1.9.0"), platform_deps := none },
           { line := "numpy>=1.19.2", package := "numpy",
             version := some (">=", "1.19.2"), platform_deps := none },
           { line := "scipy>=1.5", package := "scipy",
             version := some (">=", "1.5"), platform_deps := none }] :=
  C6_thm
    [("reqs.txt", ["-r other.txt", "scipy>=1.5"]),
     ("other.txt", ["torch==1.9.0", "numpy>=1.19.2"])]
    1 "reqs.txt" "-r other.txt" "other.txt" ["scipy>=1.5"]
    [{ line := "torch==1.9.0", package := "torch",
       version := some ("==", "1.9.0"), platform_deps := none },
     { line := "numpy>=1.19.2", package := "numpy",
       version := some (">=", "1.19.2"), platform_deps := none }]
    [{ line := "scipy>=1.5", package := "scipy",
       version := some (">=", "1.5"), platform_deps := none }]
    rfl rfl rfl rfl rfl rfl rfl rfl

/-- C10. For a stripped editable line (`-e ` with no surrounding blanks): if
the line holds no `#egg=` marker the whole parse fails with the index error
of `split("#egg=")[1]` rather than degrading; if the marker is present the
recorded package name is the segment of the split at index 1, i.e. the text
between the first `#egg=` and any subsequent one — not necessarily everything
to the end of the line. -/
theorem C10_thm (fs : FS) (fuel : Nat) (fname lineE : String)
    (hfs : lookupFS fs fname = some [lineE])
    (htrim : pyStrip lineE = lineE)
    (hne : (lineE == "") = false)
    (hh : pyStartsWith lineE "#" = false)
    (hr : pyStartsWith lineE "-r " = false)
    (he : pyStartsWith lineE "-e " = true) :
    ((pySplit lineE "#egg=")[1]? = none →
       parse_requirements fs (fuel + 1) fname true = .error .indexError) ∧
    (∀ pkg, (pySplit lineE "#egg=")[1]? = some pkg →
       parse_requirements fs (fuel + 1) fname true = .ok [pkg]) := by
  have h1 : parse_require_file fs (fuel + 1) fname = gen_lines fs fuel [lineE] := by
    rw [parse_require_file_succ, hfs]
  constructor
  · intro hegg
    have h0 : gen_lines fs fuel [lineE] = .error .indexError := by
      simp [gen_lines, combineLine, parse_line_plain, htrim, hne, hh, hr, he, hegg]
    simp [parse_requirements, hfs, h1, h0]
  · intro pkg hegg
    have h0 : gen_lines fs fuel [lineE] =
        .ok [{ line := lineE, package := pkg, version := none, platform_deps := none }] := by
      simp [gen_lines, combineLine, parse_line_plain, htrim, hne, hh, hr, he, hegg]
    simp [parse_requirements, hfs, h1, h0, gen_item, string_join_single]

/-- C10, witness: with two `#egg=` markers the recorded name is the segment
between them; with no marker the parse fails with the index error. -/
theorem C10_witness :
    parse_requirements [("r.txt", ["-e git+http://host/repo#egg=foo#egg=bar"])] 1 "r.txt" true =
      .ok ["foo"] ∧
    parse_requirements [("r2.txt", ["-e git+http://host/repo"])] 1 "r2.txt" true =
      .error .indexError :=
  ⟨(C10_thm [("r.txt", ["-e git+http://host/repo#egg=foo#egg=bar"])] 0 "r.txt"
      "-e git+http://host/repo#egg=foo#egg=bar" rfl rfl rfl rfl rfl rfl).2 "foo" rfl,
   (C10_thm [("r2.txt", ["-e git+http://host/repo"])] 0 "r2.txt"
      "-e git+http://host/repo" rfl rfl rfl rfl rfl rfl).1 rfl⟩
